import Mathlib

/-!
# Verification of the tubes-js realtime client (`src/lib/client.ts`)

A shallow embedding of the `TubesClient` class.  The embedding follows
the TypeScript source line by line:

* Handlers are compared by JavaScript identity (`fn === handler`); we model
  a handler reference as a `Nat` identity token.  A nullable handler
  argument (`handler` may be `null`/`undefined`, which are falsy) is
  modelled as `Option Nat`.
* The handler store `ChannelHandlerStore` (a JS object mapping channel →
  array of handlers) is modelled as an association list with unique keys:
  `lookupH` is property read, `setH` is property write, `deleteH` is the
  `delete` operator.  JS truthiness: a missing property is falsy, an array
  (even empty) is truthy — the source's guards are translated accordingly.
* Async control flow is single-threaded and cooperative.  Each method is
  modelled as its synchronous effect up to the point where it either
  completes, rejects, or suspends awaiting the shared connecting promise.
  The connecting promise (`connectingPromise`) is modelled as an
  `Option Nat` holding the identity of the pending promise; the body of a
  connection attempt (which runs after `await timeout(delay)`) is modelled
  by the separate functions `connectBodySuccess` / `connectBodyError`.
* Transport I/O is observable: every `ws.send` is logged as an `Envelope`
  in the result, and every `new WebSocket(...)` construction increments a
  `constructions` counter.
* Wall-clock time: the source computes `new Date().getTime() -
  this.initTime.getTime()`; we pass that elapsed quantity (in ms, a `Nat`)
  directly to `retryConnect`.
-/

/-- The three values of `RealtimeMessageTypes` in the source:
`"subscribe"`, `"unsubscribe"`, `"message"`. -/
inductive MsgType where
  | subscribe
  | unsubscribe
  | chanMessage
deriving DecidableEq, Repr

/-- A wire envelope as written by `send`: `{type, channel, payload}`.
The payload of the control frames produced by `subscribe` / `unsubscribe`
/ `handleReconnect` is always the default empty object, so it is omitted
from the model. -/
structure Envelope where
  type : MsgType
  channel : String
deriving DecidableEq, Repr

/-- `TubesClientConfig` restricted to the fields the lifecycle logic
reads.  `maxRetryAge` is `number | undefined`; `none` models `undefined`. -/
structure Config where
  retryDelay : Nat
  exponentialRetryBackoff : Bool
  maxRetryAge : Option Nat
deriving DecidableEq, Repr

/-- `defaultConfig` from the source: retryDelay 5000 ms, maxRetryAge
12·60·60 s, exponential backoff on. -/
def defaultConfig : Config :=
  ⟨5000, true, some (12 * 60 * 60)⟩

/-- The handler store: JS object, channel name → array of handler
references. -/
abbrev HandlerStore := List (String × List Nat)

/-- Property read `this.handler[channel]`: `none` models `undefined`. -/
def lookupH (st : HandlerStore) (c : String) : Option (List Nat) :=
  (List.find? (fun p => p.1 == c) st).map (fun p => p.2)

/-- Property write `this.handler[channel] = l`. -/
def setH (st : HandlerStore) (c : String) (l : List Nat) : HandlerStore :=
  if List.any st (fun p => p.1 == c) then
    List.map (fun p => if p.1 == c then (c, l) else p) st
  else
    st ++ [(c, l)]

/-- The `delete this.handler[channel]` operator. -/
def deleteH (st : HandlerStore) (c : String) : HandlerStore :=
  List.filter (fun p => p.1 != c) st

/-- `this.handler[channel] && this.handler[channel].length > 0`:
the property exists and the array is non-empty. -/
def hasHandlers (st : HandlerStore) (c : String) : Bool :=
  match lookupH st c with
  | some l => !l.isEmpty
  | none => false

/-- `registerHandler`: create the array if the property is falsy
(missing), then push. -/
def registerH (st : HandlerStore) (c : String) (f : Nat) : HandlerStore :=
  setH st c (((lookupH st c).getD []) ++ [f])

/-- `unregisterHandler`, verbatim from the source: when the property
exists (arrays are truthy, even empty), replace it by
`filter((fn) => fn === handler)` — note the filter KEEPS the entries
identical to `handler` and removes all others. -/
def unregisterH (st : HandlerStore) (c : String) (f : Nat) : HandlerStore :=
  match lookupH st c with
  | some l => setH st c (List.filter (fun fn => fn == f) l)
  | none => st

/-- The mutable fields of a `TubesClient` instance. -/
structure ClientState where
  closed : Bool
  handler : HandlerStore
  currentRetryDelay : Nat
  subscribedChannels : List String
  /-- `this.ws` is assigned a live socket. -/
  ws : Bool
  /-- `this.connectingPromise`, as the identity of the pending promise. -/
  connecting : Option Nat
  /-- counter used to mint promise identities. -/
  promisesMade : Nat
  /-- number of `new WebSocket(...)` constructions performed so far. -/
  constructions : Nat
deriving DecidableEq, Repr

/-- State right after the constructor ran. -/
def initialState : ClientState :=
  { closed := false
    handler := []
    currentRetryDelay := 0
    subscribedChannels := []
    ws := false
    connecting := none
    promisesMade := 0
    constructions := 0 }

/-- Errors named by the specification.  Modelled from the spec:
`ClosedError` appears in the spec's error taxonomy, but no such class
exists in the source; the source rejects with a bare `rej()` /
`Promise.reject()` (reason `undefined`). -/
inductive SpecError where
  | closedError
deriving DecidableEq, Repr

/-- Outcome of awaiting one of the async methods up to its first
suspension: it resolved, rejected with a reason (`none` = `undefined`),
or is still pending on the shared connecting promise `pid`. -/
inductive Outcome where
  | resolved
  | rejected (reason : Option SpecError)
  | pending (pid : Nat)
deriving DecidableEq, Repr

/-- Result of running a public operation: the new state, the envelopes
written to the transport (in order), and the outcome of the returned
promise. -/
structure OpRun where
  state : ClientState
  sent : List Envelope
  outcome : Outcome
deriving DecidableEq, Repr

/-- The synchronous part of `connect`: reject if closed; otherwise return
the shared connecting promise, creating it (and scheduling the attempt
body) only when none is in flight.  The body itself — which runs after
`await timeout(delay)` — is `connectBodySuccess` / `connectBodyError`. -/
def connectStart (s : ClientState) : ClientState × Outcome :=
  if s.closed then (s, Outcome.rejected none)
  else
    match s.connecting with
    | some pid => (s, Outcome.pending pid)
    | none =>
        ({ s with connecting := some s.promisesMade,
                  promisesMade := s.promisesMade + 1 },
         Outcome.pending s.promisesMade)

/-- `lazyInit`: done if a socket is assigned; else await the in-flight
connect if any; else start one with delay 0. -/
def lazyInit (s : ClientState) : ClientState × Outcome :=
  if s.ws then (s, Outcome.resolved)
  else
    match s.connecting with
    | some pid => (s, Outcome.pending pid)
    | none => connectStart s

/-- `send(channel, {type})` with the default empty payload: lazy init,
then `this.ws!.send(...)`.  When lazy init resolves synchronously the
socket is present and the write is performed. -/
def sendOp (s : ClientState) (c : String) (t : MsgType) : OpRun :=
  match lazyInit s with
  | (s1, Outcome.resolved) => ⟨s1, [⟨t, c⟩], Outcome.resolved⟩
  | (s1, o) => ⟨s1, [], o⟩

/-- `subscribe(channel, handler)`.  `if (handler)` is truthiness on the
nullable handler argument. -/
def subscribe (s : ClientState) (c : String) (h : Option Nat) : OpRun :=
  match lazyInit s with
  | (s1, Outcome.resolved) =>
      let hasAlready := hasHandlers s1.handler c
      let s2 := match h with
        | some f => { s1 with handler := registerH s1.handler c f }
        | none => s1
      if hasAlready then ⟨s2, [], Outcome.resolved⟩
      else
        match sendOp s2 c MsgType.subscribe with
        | ⟨s3, out, Outcome.resolved⟩ =>
            ⟨{ s3 with subscribedChannels := s3.subscribedChannels ++ [c] },
             out, Outcome.resolved⟩
        | r => r
  | (s1, o) => ⟨s1, [], o⟩

/-- `unsubscribe(channel, handler)`. -/
def unsubscribe (s : ClientState) (c : String) (h : Option Nat) : OpRun :=
  match lazyInit s with
  | (s1, Outcome.resolved) =>
      let s2 := match h with
        | some f => { s1 with handler := unregisterH s1.handler c f }
        | none => s1
      if hasHandlers s2.handler c then ⟨s2, [], Outcome.resolved⟩
      else
        match sendOp s2 c MsgType.unsubscribe with
        | ⟨s3, out, Outcome.resolved⟩ =>
            ⟨{ s3 with subscribedChannels :=
                 List.filter (fun x => x != c) s3.subscribedChannels },
             out, Outcome.resolved⟩
        | r => r
  | (s1, o) => ⟨s1, [], o⟩

/-- `unsubscribeAll(channel)`: deletes the handler entry unconditionally,
sends one `unsubscribe` envelope, filters the channel out of
`subscribedChannels`. -/
def unsubscribeAll (s : ClientState) (c : String) : OpRun :=
  match lazyInit s with
  | (s1, Outcome.resolved) =>
      let s2 := { s1 with handler := deleteH s1.handler c }
      match sendOp s2 c MsgType.unsubscribe with
      | ⟨s3, out, Outcome.resolved⟩ =>
          ⟨{ s3 with subscribedChannels :=
               List.filter (fun x => x != c) s3.subscribedChannels },
           out, Outcome.resolved⟩
      | r => r
  | (s1, o) => ⟨s1, [], o⟩

/-- Inbound dispatch `handleMessage`: returns the state (never mutated by
dispatch) together with the sequence of handler references invoked, in
registration order.  An unknown channel invokes nothing; the function is
total (no exception is raised on the unknown-channel path). -/
def handleMessage (s : ClientState) (c : String) : ClientState × List Nat :=
  (s, match lookupH s.handler c with
      | some l => l
      | none => [])

/-- `handleReconnect`: for each channel of `subscribedChannels` in order,
`await this.send(channel, {type: subscribe})`. -/
def handleReconnect (s : ClientState) : ClientState × List Envelope :=
  List.foldl
    (fun (acc : ClientState × List Envelope) c =>
      let r := sendOp acc.1 c MsgType.subscribe
      (r.state, acc.2 ++ r.sent))
    (s, []) s.subscribedChannels

/-- The body of a connection attempt reaching `runOnSuccess` (the socket
was constructed — or taken ready — and reported open): reset
`currentRetryDelay`, install the socket, clear the shared promise, and on
a reconnect replay the subscriptions. -/
def connectBodySuccess (s : ClientState) (isReconnect : Bool) :
    ClientState × List Envelope :=
  let s1 := { s with constructions := s.constructions + 1 }
  let s2 := { s1 with currentRetryDelay := 0, ws := true, connecting := none }
  if isReconnect then handleReconnect s2 else (s2, [])

/-- `this.config.maxRetryAge && timeSinceInit > this.config.maxRetryAge *
1000` — JS truthiness: `undefined` and `0` disable the cutoff. -/
def ageExceeded (cfg : Config) (elapsedMs : Nat) : Bool :=
  match cfg.maxRetryAge with
  | some m => decide (0 < m) && decide (m * 1000 < elapsedMs)
  | none => false

/-- Result of `retryConnect`: the new state, and the delay argument passed
to `connect` (`none` when `retryConnect` returned without calling
`connect`). -/
structure RetryResult where
  state : ClientState
  connectDelay : Option Nat
deriving DecidableEq, Repr

/-- `retryConnect`: bail out when closed or past the retry-age cutoff;
otherwise recompute `currentRetryDelay` and call
`connect(currentRetryDelay, true)`. -/
def retryConnect (cfg : Config) (elapsedMs : Nat) (s : ClientState) :
    RetryResult :=
  if s.closed then ⟨s, none⟩
  else if ageExceeded cfg elapsedMs then ⟨s, none⟩
  else
    let d := if cfg.exponentialRetryBackoff then s.currentRetryDelay * 2
             else cfg.retryDelay
    let s1 := { s with currentRetryDelay := d }
    ⟨(connectStart s1).1, some d⟩

/-- The body of a connection attempt whose socket reported an error
before opening (`onerror` with the promise still pending): the socket was
constructed, the shared promise is cleared and rejected, and
`retryConnect` runs. -/
def connectBodyError (cfg : Config) (elapsedMs : Nat) (s : ClientState) :
    RetryResult :=
  let s1 := { s with constructions := s.constructions + 1, connecting := none }
  retryConnect cfg elapsedMs s1

/-- `close()`: set the terminal flag; any in-flight connect is awaited
(its body clears `connecting` when it settles); `ws.close()` is issued on
the socket when present — but `this.ws` is NOT cleared here (only the
socket's later `onclose` event clears it). -/
def close (s : ClientState) : ClientState :=
  { s with closed := true }

/-- The socket's `onclose` handler installed by `addSocketHandler`: clear
`this.ws`, then `retryConnect`. -/
def onSocketClose (cfg : Config) (elapsedMs : Nat) (s : ClientState) :
    RetryResult :=
  retryConnect cfg elapsedMs { s with ws := false }

/-! ## Concrete scenario states -/

/-- A live connected client: the first connection attempt ran to a
successful open (`lazyInit` path, not a reconnect). -/
def connectedState : ClientState :=
  (connectBodySuccess (connectStart initialState).1 false).1

/-- A connected client subscribed to channels `"a"` and `"b"`, in that
order. -/
def twoChanState : ClientState :=
  (subscribe (subscribe connectedState "a" (some 1)).state "b" (some 2)).state

/-- A connected client after `close()` completed AND the socket's
`onclose` event was processed (so `this.ws` is cleared). -/
def closedDrainedState : ClientState :=
  (onSocketClose defaultConfig 0 (close connectedState)).state

/-- First connection attempt of a fresh client failing: the socket errors
and `retryConnect` runs (elapsed 5 ms since construction). -/
def failOnce : RetryResult :=
  connectBodyError defaultConfig 5 (connectStart initialState).1

/-- Second consecutive failure. -/
def failTwice : RetryResult := connectBodyError defaultConfig 5 failOnce.state

/-- Third consecutive failure. -/
def failThrice : RetryResult := connectBodyError defaultConfig 5 failTwice.state

/-- A `subscribe` issued on a fresh client before any connection exists:
it suspends on the lazy-init connect attempt. -/
def lazyA : OpRun := subscribe initialState "a" (some 1)

/-- A second `subscribe` issued while that attempt is still in flight. -/
def lazyB : OpRun := subscribe lazyA.state "b" (some 2)

/-! ## Association-list lemmas for the handler store -/

theorem find?_map_set_of_any (c : String) (l : List Nat) :
    ∀ st : HandlerStore, List.any st (fun p => p.1 == c) = true →
      List.find? (fun p => p.1 == c)
        (List.map (fun p => if p.1 == c then (c, l) else p) st) = some (c, l) := by
  intro st
  induction st with
  | nil => simp
  | cons p st ih =>
      by_cases h : p.1 = c
      · intro _
        simp [h]
      · have hb : (p.1 == c) = false := by simp [h]
        intro hany
        simp only [List.any_cons, hb, Bool.false_or] at hany
        have hhead : (if (p.1 == c) = true then (c, l) else p) = p := by
          simp [hb]
        rw [List.map_cons, hhead, List.find?_cons, hb]
        exact ih hany

theorem find?_eq_none_of_not_any (c : String) :
    ∀ st : HandlerStore, List.any st (fun p => p.1 == c) = false →
      List.find? (fun p => p.1 == c) st = none := by
  intro st
  induction st with
  | nil => simp
  | cons p st ih =>
      intro hany
      cases hpc : (p.1 == c) with
      | true =>
          exfalso
          rw [List.any_cons, hpc, Bool.true_or] at hany
          exact Bool.true_eq_false.mp hany
      | false =>
          rw [List.any_cons, hpc, Bool.false_or] at hany
          rw [List.find?_cons, hpc]
          exact ih hany

theorem lookupH_setH_self (st : HandlerStore) (c : String) (l : List Nat) :
    lookupH (setH st c l) c = some l := by
  unfold setH
  cases hany : List.any st (fun p => p.1 == c) with
  | true =>
      simp only [if_true, lookupH, find?_map_set_of_any c l st hany,
        Option.map_some']
  | false =>
      simp only [Bool.false_eq_true, if_false, lookupH]
      rw [List.find?_append, find?_eq_none_of_not_any c st hany]
      simp

theorem lookupH_deleteH_self (st : HandlerStore) (c : String) :
    lookupH (deleteH st c) c = none := by
  unfold deleteH lookupH
  induction st with
  | nil => simp
  | cons p st ih =>
      by_cases h : p.1 = c
      · have hb : (p.1 != c) = false := by simp [h]
        simp only [List.filter_cons, hb, Bool.false_eq_true, if_false]
        exact ih
      · have hb : (p.1 != c) = true := by simp [h]
        simp only [List.filter_cons, hb, if_true, List.find?_cons]
        have hb2 : (p.1 == c) = false := by simp [h]
        simp only [hb2]
        exact ih

theorem lookupH_registerH_self (st : HandlerStore) (c : String) (f : Nat) :
    lookupH (registerH st c f) c = some (((lookupH st c).getD []) ++ [f]) := by
  unfold registerH
  exact lookupH_setH_self st c _

theorem getD_eq_nil_of_not_hasHandlers (st : HandlerStore) (c : String)
    (h : hasHandlers st c = false) : (lookupH st c).getD [] = [] := by
  unfold hasHandlers at h
  cases hl : lookupH st c with
  | none => simp
  | some l =>
      rw [hl] at h
      simp only [Bool.not_eq_false'] at h
      simpa using h

/-! ## Behaviour of the primitive operations on a live connection -/

theorem sendOp_of_ws (s : ClientState) (c : String) (t : MsgType)
    (hws : s.ws = true) : sendOp s c t = ⟨s, [⟨t, c⟩], Outcome.resolved⟩ := by
  simp [sendOp, lazyInit, hws]

/-! ## Characterisation of the operations on a live connection -/

theorem lazyInit_of_ws (s : ClientState) (hws : s.ws = true) :
    lazyInit s = (s, Outcome.resolved) := by
  simp [lazyInit, hws]

theorem subscribe_some_of_noHandlers (s : ClientState) (c : String) (h : Nat)
    (hws : s.ws = true) (hh : hasHandlers s.handler c = false) :
    subscribe s c (some h) =
      ⟨{ s with handler := registerH s.handler c h,
                subscribedChannels := s.subscribedChannels ++ [c] },
       [⟨MsgType.subscribe, c⟩], Outcome.resolved⟩ := by
  simp [subscribe, lazyInit_of_ws s hws, hh, sendOp, lazyInit, hws]

theorem subscribe_some_of_hasHandlers (s : ClientState) (c : String) (h : Nat)
    (hws : s.ws = true) (hh : hasHandlers s.handler c = true) :
    subscribe s c (some h) =
      ⟨{ s with handler := registerH s.handler c h }, [], Outcome.resolved⟩ := by
  simp [subscribe, lazyInit_of_ws s hws, hh]

theorem subscribe_none_of_noHandlers (s : ClientState) (c : String)
    (hws : s.ws = true) (hh : hasHandlers s.handler c = false) :
    subscribe s c none =
      ⟨{ s with subscribedChannels := s.subscribedChannels ++ [c] },
       [⟨MsgType.subscribe, c⟩], Outcome.resolved⟩ := by
  simp [subscribe, lazyInit_of_ws s hws, hh, sendOp, lazyInit, hws]

theorem unsubscribeAll_of_ws (s : ClientState) (c : String) (hws : s.ws = true) :
    unsubscribeAll s c =
      ⟨{ s with handler := deleteH s.handler c,
                subscribedChannels :=
                  List.filter (fun x => x != c) s.subscribedChannels },
       [⟨MsgType.unsubscribe, c⟩], Outcome.resolved⟩ := by
  simp [unsubscribeAll, lazyInit_of_ws s hws, sendOp, lazyInit, hws]

theorem handleReconnect_of_ws (s : ClientState) (hws : s.ws = true) :
    handleReconnect s =
      (s, List.map (fun c => Envelope.mk MsgType.subscribe c)
            s.subscribedChannels) := by
  unfold handleReconnect
  suffices h : ∀ (l : List String) (acc : List Envelope),
      List.foldl (fun (acc : ClientState × List Envelope) c =>
        let r := sendOp acc.1 c MsgType.subscribe
        (r.state, acc.2 ++ r.sent)) (s, acc) l
      = (s, acc ++ List.map (fun c => Envelope.mk MsgType.subscribe c) l) by
    simpa using h s.subscribedChannels []
  intro l
  induction l with
  | nil => intro acc; simp
  | cons c l ih =>
      intro acc
      rw [List.foldl_cons]
      simp only [sendOp_of_ws s c MsgType.subscribe hws]
      rw [ih]
      simp

/-- `connectStart` never changes `currentRetryDelay`: the delay is fixed
before `connect` is invoked. -/
theorem connectStart_currentRetryDelay (s : ClientState) :
    ((connectStart s).1).currentRetryDelay = s.currentRetryDelay := by
  unfold connectStart
  split
  · rfl
  · split <;> rfl

/-! ## The claims -/

/-- C1: the claim says `subscribe(c,h)` followed by `unsubscribe(c,h)`
sends exactly one `unsubscribe` envelope, removes `h` from the channel's
handler sequence, and stops dispatch to `h`.  The source's
`unregisterHandler` filters with `fn === handler`, which KEEPS the
matching handler and removes everything else; the channel therefore still
has a handler, the early-return fires, no `unsubscribe` envelope is sent,
and a subsequent message on the channel still invokes `h`.  Evaluating
the code at the failing input — `subscribe("chat", h₇)` then
`unsubscribe("chat", h₇)` on a connected client: no envelope is written,
handler 7 is still registered, and dispatch on `"chat"` still invokes
handler 7. -/
theorem c1_unsubscribe_keeps_handler_sends_nothing :
    (unsubscribe (subscribe connectedState "chat" (some 7)).state "chat"
      (some 7)).sent = [] ∧
    lookupH (unsubscribe (subscribe connectedState "chat" (some 7)).state
      "chat" (some 7)).state.handler "chat" = some [7] ∧
    (handleMessage (unsubscribe (subscribe connectedState "chat"
      (some 7)).state "chat" (some 7)).state "chat").2 = [7] := by decide

/-- C2 counterexample: the claim says every public operation invoked
after `close()` has completed fails with `ClosedError` and performs no
transport I/O.  At a concrete connected client on which `close()` has
completed (the socket's `onclose` event has not yet fired, so `this.ws`
is still assigned — `close()` never clears it), `subscribe` RESOLVES and
WRITES a subscribe envelope to the closed socket; and even once the
`onclose` event has cleared the socket, the operation rejects with reason
`undefined` (`rej()` / `Promise.reject()` carry no value — no
`ClosedError` class exists in the source), not with a `ClosedError`. -/
theorem c2_counterexample :
    (subscribe (close connectedState) "c" (some 1)).outcome =
      Outcome.resolved ∧
    (subscribe (close connectedState) "c" (some 1)).sent =
      [⟨MsgType.subscribe, "c"⟩] ∧
    (subscribe (onSocketClose defaultConfig 0 (close connectedState)).state
      "c" (some 1)).outcome = Outcome.rejected none := by decide

/-- C2 (amended): after `close()` has completed and the transport's close
event has been processed (clearing `this.ws`; `close()` itself leaves it
assigned, and an operation arriving before the close event still uses the
stale socket and writes to it), every public operation — subscribe,
unsubscribe, unsubscribeAll, send — fails with a rejected promise whose
reason is `undefined` (the code defines no `ClosedError`), performs no
transport write, and leaves the state unchanged (no transport
construction or open attempt). -/
theorem c2_after_close_rejects (s : ClientState) (c : String) (h : Option Nat)
    (t : MsgType) (hcl : s.closed = true) (hws : s.ws = false)
    (hcp : s.connecting = none) :
    subscribe s c h = ⟨s, [], Outcome.rejected none⟩ ∧
    unsubscribe s c h = ⟨s, [], Outcome.rejected none⟩ ∧
    unsubscribeAll s c = ⟨s, [], Outcome.rejected none⟩ ∧
    sendOp s c t = ⟨s, [], Outcome.rejected none⟩ := by
  have hl : lazyInit s = (s, Outcome.rejected none) := by
    simp [lazyInit, hws, hcp, connectStart, hcl]
  refine ⟨?_, ?_, ?_, ?_⟩ <;>
    simp [subscribe, unsubscribe, unsubscribeAll, sendOp, hl]

/-- C2 witness: the amended theorem applied to a concrete closed-and-
drained client. -/
theorem c2_witness :
    subscribe closedDrainedState "c" (some 1) =
      ⟨closedDrainedState, [], Outcome.rejected none⟩ ∧
    unsubscribe closedDrainedState "c" (some 1) =
      ⟨closedDrainedState, [], Outcome.rejected none⟩ ∧
    unsubscribeAll closedDrainedState "c" =
      ⟨closedDrainedState, [], Outcome.rejected none⟩ ∧
    sendOp closedDrainedState "c" MsgType.chanMessage =
      ⟨closedDrainedState, [], Outcome.rejected none⟩ :=
  c2_after_close_rejects closedDrainedState "c" (some 1) MsgType.chanMessage
    (by decide) (by decide) (by decide)

/-- C3: on every retry trigger that passes the closed/age guards, with
`exponentialRetryBackoff = true` the recomputed delay (both the value
stored in `currentRetryDelay` and the delay argument handed to `connect`)
is twice its previous value — so a fresh client (initial value 0) yields
delays 0, 0, 0 over three consecutive connect failures, as the concrete
`failOnce`/`failTwice`/`failThrice` chain shows; with
`exponentialRetryBackoff = false` each retry uses the configured
`retryDelay`; and every successful connect (`runOnSuccess`) resets
`currentRetryDelay` to 0. -/
theorem c3_backoff :
    (∀ (cfg : Config) (elapsedMs : Nat) (s : ClientState),
      s.closed = false → ageExceeded cfg elapsedMs = false →
      (cfg.exponentialRetryBackoff = true →
        (retryConnect cfg elapsedMs s).connectDelay =
          some (s.currentRetryDelay * 2) ∧
        ((retryConnect cfg elapsedMs s).state).currentRetryDelay =
          s.currentRetryDelay * 2) ∧
      (cfg.exponentialRetryBackoff = false →
        (retryConnect cfg elapsedMs s).connectDelay = some cfg.retryDelay ∧
        ((retryConnect cfg elapsedMs s).state).currentRetryDelay =
          cfg.retryDelay)) ∧
    (∀ (s : ClientState) (isReconnect : Bool),
      ((connectBodySuccess s isReconnect).1).currentRetryDelay = 0) ∧
    (failOnce.connectDelay = some 0 ∧ failTwice.connectDelay = some 0 ∧
      failThrice.connectDelay = some 0) := by
  refine ⟨?_, ?_, by decide⟩
  · intro cfg elapsedMs s hcl hage
    constructor
    · intro hexp
      simp [retryConnect, hcl, hage, hexp, connectStart_currentRetryDelay]
    · intro hexp
      simp [retryConnect, hcl, hage, hexp, connectStart_currentRetryDelay]
  · intro s isReconnect
    unfold connectBodySuccess
    cases isReconnect with
    | false => rfl
    | true =>
        rw [if_pos rfl]
        rw [handleReconnect_of_ws _ rfl]

/-- C3 witness: the backoff theorem applied at concrete inputs — a fresh
client under the default (exponential) config doubles 0 to 0; a
fixed-backoff config with `retryDelay = 1000` uses 1000; a successful
connect resets the delay to 0. -/
theorem c3_witness :
    (retryConnect defaultConfig 5 initialState).connectDelay = some 0 ∧
    (retryConnect ⟨1000, false, some 43200⟩ 5 initialState).connectDelay =
      some 1000 ∧
    ((connectBodySuccess initialState true).1).currentRetryDelay = 0 :=
  ⟨((c3_backoff.1 defaultConfig 5 initialState rfl (by decide)).1 rfl).1,
   ((c3_backoff.1 ⟨1000, false, some 43200⟩ 5 initialState rfl
      (by decide)).2 rfl).1,
   c3_backoff.2.1 initialState true⟩

/-- C4: at most one connection attempt is in flight — while an attempt is
pending, both `lazyInit` and `connect` return the same shared pending
promise without touching the state (no second transport construction);
and two `subscribe` calls issued on a fresh client before any connection
exists (`lazyA`, `lazyB`) await the same pending promise (identity 0),
with exactly one promise minted and exactly one transport construction
once the attempt body runs. -/
theorem c4_single_flight :
    (∀ (s : ClientState) (pid : Nat), s.ws = false → s.connecting = some pid →
      lazyInit s = (s, Outcome.pending pid)) ∧
    (∀ (s : ClientState) (pid : Nat), s.closed = false →
      s.connecting = some pid → connectStart s = (s, Outcome.pending pid)) ∧
    (lazyA.outcome = Outcome.pending 0 ∧ lazyB.outcome = Outcome.pending 0 ∧
      lazyB.state.constructions = 0 ∧ lazyB.state.promisesMade = 1 ∧
      (connectBodySuccess lazyB.state false).1.constructions = 1) := by
  refine ⟨?_, ?_, by decide⟩
  · intro s pid hws hcp
    simp [lazyInit, hws, hcp]
  · intro s pid hcl hcp
    simp [connectStart, hcl, hcp]

/-- C4 witness: a third caller arriving while the attempt started by
`lazyA` is in flight observes the same pending promise 0 and changes
nothing. -/
theorem c4_witness :
    lazyInit lazyA.state = (lazyA.state, Outcome.pending 0) :=
  c4_single_flight.1 lazyA.state 0 (by decide) (by decide)

/-- C5: on a live connection whose subscribed-channel sequence is
duplicate-free (a set of subscribed channels, as reached by distinct
`subscribe` calls), `handleReconnect` re-sends exactly one subscribe
envelope per subscribed channel, in the sequence's current order, and
leaves the whole client state — in particular the local handler
registrations — unchanged. -/
theorem c5_reconnect_replays_each_channel_once (s : ClientState)
    (hws : s.ws = true) (hnd : s.subscribedChannels.Nodup) :
    (handleReconnect s).1 = s ∧
    (handleReconnect s).2 =
      List.map (fun c => Envelope.mk MsgType.subscribe c)
        s.subscribedChannels ∧
    ∀ c ∈ s.subscribedChannels,
      List.count (Envelope.mk MsgType.subscribe c) (handleReconnect s).2 = 1 := by
  have hr := handleReconnect_of_ws s hws
  refine ⟨by rw [hr], by rw [hr], ?_⟩
  intro c hc
  rw [hr]
  have hinj : Function.Injective (fun c => Envelope.mk MsgType.subscribe c) := by
    intro a b hab
    simpa using hab
  have hmap : (List.map (fun c => Envelope.mk MsgType.subscribe c)
      s.subscribedChannels).Nodup := hnd.map hinj
  exact List.count_eq_one_of_mem hmap
    (List.mem_map_of_mem (fun c => Envelope.mk MsgType.subscribe c) hc)

/-- C5 witness: the replay theorem applied to a client subscribed to
`"a"` then `"b"`. -/
theorem c5_witness :
    (handleReconnect twoChanState).1 = twoChanState ∧
    (handleReconnect twoChanState).2 =
      List.map (fun c => Envelope.mk MsgType.subscribe c)
        twoChanState.subscribedChannels ∧
    ∀ c ∈ twoChanState.subscribedChannels,
      List.count (Envelope.mk MsgType.subscribe c)
        (handleReconnect twoChanState).2 = 1 :=
  c5_reconnect_replays_each_channel_once twoChanState (by decide) (by decide)

/-- C6: on a live connection, for a channel with no handlers yet,
`subscribe(c, h₁); subscribe(c, h₂)` sends exactly one subscribe envelope
(the first call sends it, the second sends none because the channel
already has a handler), and a subsequently dispatched message on `c`
invokes `h₁` then `h₂` in registration order. -/
theorem c6_second_subscribe_sends_nothing (s : ClientState) (c : String)
    (h1 h2 : Nat) (hws : s.ws = true) (hh : hasHandlers s.handler c = false) :
    (subscribe s c (some h1)).sent = [⟨MsgType.subscribe, c⟩] ∧
    (subscribe s c (some h1)).outcome = Outcome.resolved ∧
    (subscribe (subscribe s c (some h1)).state c (some h2)).sent = [] ∧
    (subscribe (subscribe s c (some h1)).state c (some h2)).outcome =
      Outcome.resolved ∧
    (handleMessage
      (subscribe (subscribe s c (some h1)).state c (some h2)).state c).2 =
      [h1, h2] := by
  have e1 := subscribe_some_of_noHandlers s c h1 hws hh
  have hlook1 : lookupH (registerH s.handler c h1) c = some [h1] := by
    rw [lookupH_registerH_self, getD_eq_nil_of_not_hasHandlers s.handler c hh]
    simp
  have hh1 : hasHandlers (registerH s.handler c h1) c = true := by
    simp [hasHandlers, hlook1]
  have e2 := subscribe_some_of_hasHandlers
    { s with handler := registerH s.handler c h1,
             subscribedChannels := s.subscribedChannels ++ [c] } c h2 hws hh1
  have hlook2 : lookupH (registerH (registerH s.handler c h1) c h2) c =
      some [h1, h2] := by
    rw [lookupH_registerH_self, hlook1]
    simp
  rw [e1]
  refine ⟨rfl, rfl, ?_, ?_, ?_⟩
  · rw [e2]
  · rw [e2]
  · rw [e2]
    simp [handleMessage, hlook2]

/-- C6 witness: two subscribes to `"chat"` with handlers 5 and 6 on a
live connected client. -/
theorem c6_witness :
    (subscribe connectedState "chat" (some 5)).sent =
      [⟨MsgType.subscribe, "chat"⟩] ∧
    (subscribe connectedState "chat" (some 5)).outcome = Outcome.resolved ∧
    (subscribe (subscribe connectedState "chat" (some 5)).state "chat"
      (some 6)).sent = [] ∧
    (subscribe (subscribe connectedState "chat" (some 5)).state "chat"
      (some 6)).outcome = Outcome.resolved ∧
    (handleMessage (subscribe (subscribe connectedState "chat" (some 5)).state
      "chat" (some 6)).state "chat").2 = [5, 6] :=
  c6_second_subscribe_sends_nothing connectedState "chat" 5 6
    (by decide) (by decide)

/-- C7: on a live connection, `unsubscribeAll(c)` — after any prior
sequence of subscribes, including none — sends exactly one unsubscribe
envelope, deletes the channel's handler entry, and removes `c` from the
subscribed-channel sequence. -/
theorem c7_unsubscribeAll_always_sends_one (s : ClientState) (c : String)
    (hws : s.ws = true) :
    (unsubscribeAll s c).sent = [⟨MsgType.unsubscribe, c⟩] ∧
    (unsubscribeAll s c).outcome = Outcome.resolved ∧
    lookupH (unsubscribeAll s c).state.handler c = none ∧
    (unsubscribeAll s c).state.subscribedChannels =
      List.filter (fun x => x != c) s.subscribedChannels ∧
    c ∉ (unsubscribeAll s c).state.subscribedChannels := by
  rw [unsubscribeAll_of_ws s c hws]
  refine ⟨rfl, rfl, lookupH_deleteH_self s.handler c, rfl, ?_⟩
  simp [List.mem_filter]

/-- C7 witness: `unsubscribeAll("lobby")` on a connected client that
never subscribed to `"lobby"` (zero handlers). -/
theorem c7_witness :
    (unsubscribeAll connectedState "lobby").sent =
      [⟨MsgType.unsubscribe, "lobby"⟩] ∧
    (unsubscribeAll connectedState "lobby").outcome = Outcome.resolved ∧
    lookupH (unsubscribeAll connectedState "lobby").state.handler "lobby" =
      none ∧
    (unsubscribeAll connectedState "lobby").state.subscribedChannels =
      List.filter (fun x => x != "lobby")
        connectedState.subscribedChannels ∧
    "lobby" ∉ (unsubscribeAll connectedState "lobby").state.subscribedChannels :=
  c7_unsubscribeAll_always_sends_one connectedState "lobby" (by decide)

/-- C9: an inbound envelope whose channel has no entry in the handler
registry invokes no handler and leaves the whole state — registry and
subscribed-channel sequence — unchanged; `handleMessage` is a total
function, so no error is raised and nothing is buffered. -/
theorem c9_unknown_channel_dropped (s : ClientState) (c : String)
    (h : lookupH s.handler c = none) : handleMessage s c = (s, []) := by
  simp [handleMessage, h]

/-- C9 witness: dispatch on the unknown channel `"ghost"` of a connected
client with an empty registry. -/
theorem c9_witness :
    handleMessage connectedState "ghost" = (connectedState, []) :=
  c9_unknown_channel_dropped connectedState "ghost" (by decide)

/-- C10: on a live connection, `subscribe(c, null)` on a channel without
handlers registers nothing (`if (handler)` skips falsy handlers) yet
still sends a subscribe envelope and appends `c` to the
subscribed-channel sequence; repeating the call sends another envelope
and appends a duplicate entry. -/
theorem c10_null_handler_subscribe (s : ClientState) (c : String)
    (hws : s.ws = true) (hh : hasHandlers s.handler c = false) :
    (subscribe s c none).state.handler = s.handler ∧
    (subscribe s c none).sent = [⟨MsgType.subscribe, c⟩] ∧
    (subscribe s c none).state.subscribedChannels =
      s.subscribedChannels ++ [c] ∧
    (subscribe (subscribe s c none).state c none).state.handler = s.handler ∧
    (subscribe (subscribe s c none).state c none).sent =
      [⟨MsgType.subscribe, c⟩] ∧
    (subscribe (subscribe s c none).state c none).state.subscribedChannels =
      s.subscribedChannels ++ [c, c] := by
  have e1 := subscribe_none_of_noHandlers s c hws hh
  rw [e1]
  have e2 := subscribe_none_of_noHandlers
    { s with subscribedChannels := s.subscribedChannels ++ [c] } c hws hh
  refine ⟨rfl, rfl, rfl, ?_, ?_, ?_⟩
  · rw [e2]
  · rw [e2]
  · rw [e2]
    simp

/-- C10 witness: two null-handler subscribes to `"room"` on a connected
client. -/
theorem c10_witness :
    (subscribe connectedState "room" none).state.handler =
      connectedState.handler ∧
    (subscribe connectedState "room" none).sent =
      [⟨MsgType.subscribe, "room"⟩] ∧
    (subscribe connectedState "room" none).state.subscribedChannels =
      connectedState.subscribedChannels ++ ["room"] ∧
    (subscribe (subscribe connectedState "room" none).state "room"
      none).state.handler = connectedState.handler ∧
    (subscribe (subscribe connectedState "room" none).state "room" none).sent =
      [⟨MsgType.subscribe, "room"⟩] ∧
    (subscribe (subscribe connectedState "room" none).state "room"
      none).state.subscribedChannels =
      connectedState.subscribedChannels ++ ["room", "room"] :=
  c10_null_handler_subscribe connectedState "room" (by decide) (by decide)

/-- C8: once elapsed time since construction strictly exceeds a
configured (non-zero — JS truthiness disables the cutoff for 0 or
`undefined`) `maxRetryAge` in seconds, `retryConnect` returns silently
without calling `connect` and without touching the state, for every
client state and hence for every later call as well: no retry attempt is
ever scheduled again. -/
theorem c8_retry_age_cutoff (cfg : Config) (m elapsedMs : Nat)
    (s : ClientState) (hm : cfg.maxRetryAge = some m) (h0 : 0 < m)
    (hex : m * 1000 < elapsedMs) :
    retryConnect cfg elapsedMs s = ⟨s, none⟩ := by
  have hage : ageExceeded cfg elapsedMs = true := by
    simp [ageExceeded, hm, h0, hex]
  simp [retryConnect, hage]

/-- C8 witness: a fresh client under the default config one millisecond
past the 12-hour cutoff. -/
theorem c8_witness :
    retryConnect defaultConfig (43200 * 1000 + 1) initialState =
      ⟨initialState, none⟩ :=
  c8_retry_age_cutoff defaultConfig 43200 (43200 * 1000 + 1) initialState
    (by decide) (by decide) (by decide)
